import Mathlib

/-!
Shallow embedding of the core logic of `src/web_app.py` (a Flask GitHub
search/diagram app) and proofs of the spec's testable properties.

Strings are modelled with Lean `String`; all Python string operations used
by the source (`lower`, `split`, `strip`, `in`, `startswith`, `replace`,
slicing, `join`) are re-implemented below by structural recursion on the
character list so that concrete instances evaluate in the kernel.
Python floats are modelled as exact rationals, and `round(x, 2)` as
round-half-to-even of `100 * x`.
-/

namespace WebApp

/-! ## Python string primitives -/

/-- `startsAt pat l`: does `pat` occur at the head of `l`?  (Python
`str.startswith` at a given position.) -/
def startsAt : List Char → List Char → Bool
  | [], _ => true
  | _ :: _, [] => false
  | a :: as, b :: bs => a == b && startsAt as bs

/-- Helper for `subStr`: does `n` occur anywhere in the list? -/
def subStrAux (n : List Char) : List Char → Bool
  | [] => n.isEmpty
  | c :: t => startsAt n (c :: t) || subStrAux n t

/-- Python's substring containment test `needle in hay`. -/
def subStr (needle hay : String) : Bool :=
  subStrAux needle.data hay.data

/-- Python `s.startswith(pre)`. -/
def pyStartsWith (pre s : String) : Bool :=
  startsAt pre.data s.data

/-- Python `c in s` for a single character. -/
def pyContainsChar (s : String) (c : Char) : Bool :=
  s.data.contains c

/-- Python `s.lower()` (ASCII, which is all the source feeds it). -/
def pyLower (s : String) : String :=
  String.mk (s.data.map Char.toLower)

/-- Python `s.strip()`. -/
def pyStrip (s : String) : String :=
  String.mk (((s.data.dropWhile Char.isWhitespace).reverse.dropWhile Char.isWhitespace).reverse)

/-- Python `s[:n]` slicing from the left. -/
def pySlice (n : Nat) (s : String) : String :=
  String.mk (s.data.take n)

/-- Python `sep.join(parts)`. -/
def pyJoin (sep : String) : List String → String
  | [] => ""
  | [x] => x
  | x :: xs => x ++ sep ++ pyJoin sep xs

/-- Helper for Python's whitespace `s.split()`: accumulate the current token
(in reverse) and emit tokens at whitespace, dropping empty tokens. -/
def wsSplitAux : List Char → List Char → List String
  | [], acc => if acc.isEmpty then [] else [String.mk acc.reverse]
  | c :: rest, acc =>
    if Char.isWhitespace c then
      if acc.isEmpty then wsSplitAux rest []
      else String.mk acc.reverse :: wsSplitAux rest []
    else wsSplitAux rest (c :: acc)

/-- Python `s.split()` with no argument: split on whitespace runs,
discarding empty tokens. -/
def pySplitWs (s : String) : List String :=
  wsSplitAux s.data []

/-- Fuel-bounded scanner for Python `s.split(sep)` with a non-empty string
separator (non-overlapping occurrences, left to right).  The fuel is the
length of the scanned list, which bounds the number of steps. -/
def splitOnCore (sep : List Char) : Nat → List Char → List Char → List (List Char)
  | _, [], acc => [acc.reverse]
  | 0, rest, acc => [acc.reverse ++ rest]
  | fuel + 1, c :: rest, acc =>
    if startsAt sep (c :: rest) then
      acc.reverse :: splitOnCore sep fuel (List.drop sep.length (c :: rest)) []
    else
      splitOnCore sep fuel rest (c :: acc)

/-- Python `s.split(sep)` for a non-empty separator string. -/
def pySplitOn (sep : String) (s : String) : List String :=
  (splitOnCore sep.data s.data.length s.data []).map String.mk

/-- Fuel-bounded scanner for Python `s.replace(old, new)` (all
non-overlapping occurrences, left to right). -/
def replaceCore (pat rep : List Char) : Nat → List Char → List Char
  | _, [] => []
  | 0, rest => rest
  | fuel + 1, c :: rest =>
    if startsAt pat (c :: rest) then
      rep ++ replaceCore pat rep fuel (List.drop pat.length (c :: rest))
    else
      c :: replaceCore pat rep fuel rest

/-- Python `s.replace(old, new)` for a non-empty pattern. -/
def pyReplace (s pat rep : String) : String :=
  String.mk (replaceCore pat.data rep.data s.data.length s.data)

/-! ## Python `round(x, 2)` on exact values: round half to even. -/

/-- Round a rational to the nearest integer, ties to even
(the rounding mode of Python's `round`). -/
def rhe (q : ℚ) : ℤ :=
  if q - ⌊q⌋ < 1 / 2 then ⌊q⌋
  else if 1 / 2 < q - ⌊q⌋ then ⌊q⌋ + 1
  else if ⌊q⌋ % 2 = 0 then ⌊q⌋ else ⌊q⌋ + 1

/-- Python `round(x, 2)`: round to two decimal places, ties to even. -/
def pyRound2 (q : ℚ) : ℚ :=
  (rhe (100 * q) : ℚ) / 100

/-! ## Data model

A well-typed repository record as parsed from the search provider's
response.  `none` models an absent (or JSON-null, where the source treats
the two alike) field; `web_app.py` defaults such fields at use sites. -/

structure Repo where
  name : Option String
  description : Option String
  topics : List String
  readme_preview : Option String
  stargazers_count : ℕ
  language : Option String
deriving DecidableEq

/-! ## `calculate_semantic_relevance` (web_app.py lines 311-369)

Each `let`-bound quantity of the source becomes one definition. -/

/-- `query_words = set(query_lower.split())` (line 314). -/
def query_words (original_query : String) : List String :=
  (pySplitWs (pyLower original_query)).dedup

/-- `repo_name = (repo.get('name') or '').lower()` (line 317). -/
def repo_name_text (repo : Repo) : String :=
  pyLower (repo.name.getD "")

/-- `repo_desc = (repo.get('description') or '').lower()` (line 318). -/
def repo_desc_text (repo : Repo) : String :=
  pyLower (repo.description.getD "")

/-- `repo_topics = ' '.join(repo.get('topics', [])).lower()` (line 319). -/
def repo_topics_text (repo : Repo) : String :=
  pyLower (pyJoin " " repo.topics)

/-- `readme_content = (repo.get('readme_preview') or '').lower()` (line 320). -/
def readme_text (repo : Repo) : String :=
  pyLower (repo.readme_preview.getD "")

/-- `all_repo_text = f"{repo_name} {repo_desc} {repo_topics} {readme_content}"`
(line 323). -/
def all_repo_text (repo : Repo) : String :=
  repo_name_text repo ++ " " ++ repo_desc_text repo ++ " " ++ repo_topics_text repo
    ++ " " ++ readme_text repo

/-- `repo_words = set(all_repo_text.split())` (line 324). -/
def repo_words (repo : Repo) : List String :=
  (pySplitWs (all_repo_text repo)).dedup

/-- `overlap = len(query_words.intersection(repo_words))` (line 327). -/
def overlap (q : String) (repo : Repo) : ℕ :=
  ((query_words q).filter (fun w => w ∈ repo_words repo)).length

/-- `name_matches = sum(3 for word in query_words if word in repo_name)`
(line 333): substring containment, 3 points per distinct query token. -/
def name_matches (q : String) (repo : Repo) : ℕ :=
  3 * ((query_words q).filter (fun w => subStr w (repo_name_text repo))).length

/-- `desc_matches = sum(2 for word in query_words if word in repo_desc)`
(line 336). -/
def desc_matches (q : String) (repo : Repo) : ℕ :=
  2 * ((query_words q).filter (fun w => subStr w (repo_desc_text repo))).length

/-- `topic_matches = sum(2 for word in query_words if word in repo_topics)`
(line 339). -/
def topic_matches (q : String) (repo : Repo) : ℕ :=
  2 * ((query_words q).filter (fun w => subStr w (repo_topics_text repo))).length

/-- `readme_matches = sum(1 for word in query_words if word in readme_content)`
(line 342). -/
def readme_matches (q : String) (repo : Repo) : ℕ :=
  ((query_words q).filter (fun w => subStr w (readme_text repo))).length

/-- Exact-phrase bonus (lines 345-349): 5 when the query has more than one
distinct token and the lowercased phrase occurs in the concatenated text. -/
def phrase_bonus (q : String) (repo : Repo) : ℕ :=
  if 1 < (query_words q).length ∧ subStr (pyLower q) (all_repo_text repo) = true then 5
  else 0

/-- `stars_bonus = min(repo.get('stargazers_count', 0) / 1000, 2)` (line 352). -/
def stars_bonus (repo : Repo) : ℚ :=
  min ((repo.stargazers_count : ℚ) / 1000) 2

/-- Language-preference bonus (lines 355-360).  `if preferred_language:` and
`if repo_language and ...` are Python truthiness tests, so a missing value
and the empty string behave alike. -/
def language_bonus (repo : Repo) (preferred_language : Option String) : ℕ :=
  if preferred_language.getD "" ≠ "" then
    if repo.language.getD "" ≠ ""
        ∧ pyLower (repo.language.getD "") = pyLower (preferred_language.getD "") then 3
    else 0
  else 0

/-- `raw_score = overlap + name_matches + desc_matches + topic_matches +
readme_matches + phrase_bonus + stars_bonus + language_bonus` (line 363). -/
def raw_score (q : String) (repo : Repo) (preferred_language : Option String) : ℚ :=
  (overlap q repo : ℚ) + (name_matches q repo : ℚ) + (desc_matches q repo : ℚ)
    + (topic_matches q repo : ℚ) + (readme_matches q repo : ℚ)
    + (phrase_bonus q repo : ℚ) + stars_bonus repo + (language_bonus repo preferred_language : ℚ)

/-- `calculate_semantic_relevance` (lines 311-369): normalize the raw score
by the fixed ceiling 20, cap at 1.0, and round to two decimals. -/
def calculate_semantic_relevance (q : String) (repo : Repo)
    (preferred_language : Option String) : ℚ :=
  pyRound2 (min (raw_score q repo preferred_language / 20) 1)

/-! ## JSON-level view of the scorer's input (for the missing/null analysis)

A raw JSON field is absent, null, or carries a value; `web_app.py` reads the
scorer's fields with `repo.get(...) or ''` (name, description, preview),
`repo.get('topics', [])`, `repo.get('stargazers_count', 0)` and
`repo.get('language', '')`, so null behaves like absent for the string
fields but raises a `TypeError` for topics (`' '.join(None)`) and for the
star count (`None / 1000`). -/

inductive JField (α : Type) where
  | absent : JField α
  | null : JField α
  | val : α → JField α
deriving DecidableEq

/-- A repository record as raw JSON: every scorer field may be absent,
null, or present. -/
structure JRepo where
  name : JField String
  description : JField String
  topics : JField (List String)
  readme_preview : JField String
  stargazers_count : JField ℕ
  language : JField String
deriving DecidableEq

/-- `repo.get(key) or ''` collapses absent, null and `''` to `''`;
a present value is kept.  (Modelled as `Option`, defaulted at use sites.) -/
def jStrOpt : JField String → Option String
  | JField.val s => some s
  | _ => none

/-- `calculate_semantic_relevance` applied to a raw JSON record: `none`
models the Python `TypeError` raised by `' '.join(None)` (line 319) or
`None / 1000` (line 352); otherwise the scorer runs with the source's
defaults for absent fields. -/
def calculate_semantic_relevance_json (q : String) (jr : JRepo)
    (preferred_language : Option String) : Option ℚ :=
  match jr.topics with
  | JField.null => none
  | t =>
    match jr.stargazers_count with
    | JField.null => none
    | s =>
      some (calculate_semantic_relevance q
        { name := jStrOpt jr.name
          description := jStrOpt jr.description
          topics := (match t with | JField.val l => l | _ => [])
          readme_preview := jStrOpt jr.readme_preview
          stargazers_count := (match s with | JField.val n => n | _ => 0)
          language := jStrOpt jr.language } preferred_language)

/-! ## `search_multiple_variations` (web_app.py lines 393-435) -/

/-- One item of a search response: the provider's numeric identity, the
owner login (used only for the preview fetch), and the scored fields. -/
structure Item where
  id : ℕ
  owner_login : String
  repo : Repo
deriving DecidableEq

/-- A merged result: the item plus the `semantic_relevance` and
`found_via_query` keys the merger attaches (lines 411-412). -/
structure ScoredItem where
  item : Item
  semantic_relevance : ℚ
  found_via_query : String
deriving DecidableEq

/-- Attach the relevance score and the originating variation (lines 411-412). -/
def scoreItem (original_query : String) (preferred_language : Option String)
    (variation : String) (it : Item) : ScoredItem :=
  ⟨it, calculate_semantic_relevance original_query it.repo preferred_language, variation⟩

/-- The per-variation search responses, flattened to (variation, item)
pairs in request order; a failed variation (`"error" in search_data`,
line 405) contributes nothing. -/
def variationPairs (search : String → Except String (List Item))
    (variations : List String) : List (String × Item) :=
  variations.flatMap (fun v =>
    match search v with
    | Except.ok items => items.map (fun it => (v, it))
    | Except.error _ => [])

/-- The merger's accumulation loop (lines 406-413): walk the responses in
order, keep an item only when its id is not in the seen-set, score it and
tag it with its variation. -/
def dedupKeepFirst (original_query : String) (preferred_language : Option String) :
    List (String × Item) → List ℕ → List ScoredItem
  | [], _ => []
  | (v, it) :: rest, seen =>
    if it.id ∈ seen then dedupKeepFirst original_query preferred_language rest seen
    else scoreItem original_query preferred_language v it
      :: dedupKeepFirst original_query preferred_language rest (it.id :: seen)

/-- `all_results` (lines 395-413): the merged unique set, in first-seen order. -/
def mergedUnique (search : String → Except String (List Item)) (variations : List String)
    (original_query : String) (preferred_language : Option String) : List ScoredItem :=
  dedupKeepFirst original_query preferred_language (variationPairs search variations) []

/-- The sort order of line 416: `key=lambda x: (x['semantic_relevance'],
x['stargazers_count']), reverse=True` — descending lexicographic on
(relevance, stars). -/
def rankGE (a b : ScoredItem) : Prop :=
  b.semantic_relevance < a.semantic_relevance
    ∨ (a.semantic_relevance = b.semantic_relevance
        ∧ b.item.repo.stargazers_count ≤ a.item.repo.stargazers_count)

instance : DecidableRel rankGE := fun a b =>
  inferInstanceAs (Decidable (_ < _ ∨ (_ = _ ∧ _ ≤ _)))

/-- The preview back-fill of lines 425-430: overwrite `readme_preview` of a
surviving item with the fetched content. -/
def updReadme (fetchReadme : Item → String) (s : ScoredItem) : ScoredItem :=
  { s with item := { s.item with repo :=
      { s.item.repo with readme_preview := some (fetchReadme s.item) } } }

/-- `search_multiple_variations` (lines 393-435): merge/dedup/score, sort by
(relevance, stars) descending with a stable sort, truncate to `limit`,
back-fill previews for exactly the survivors, and return the unique count
with the final list. -/
def search_multiple_variations (search : String → Except String (List Item))
    (fetchReadme : Item → String) (variations : List String) (original_query : String)
    (limit : ℕ) (preferred_language : Option String) : ℕ × List ScoredItem :=
  ((mergedUnique search variations original_query preferred_language).length,
    ((List.insertionSort rankGE
        (mergedUnique search variations original_query preferred_language)).take limit).map
      (updReadme fetchReadme))

/-! ## `parse_natural_language_query` (web_app.py lines 170-233)

The external completion call's outcome is a parameter: `Except.error`
models a raised exception, `Except.ok` the returned text.  Note the
source's no-client fallback (line 174) returns the bare query string,
while the exception fallback (line 233) returns a one-element list; the
sum type records that asymmetry. -/

def parse_natural_language_query (hasClient : Bool) (gen : Except String String)
    (user_query : String) : String ⊕ List String :=
  if hasClient = false then Sum.inl user_query
  else
    match gen with
    | Except.error _ => Sum.inr [user_query]
    | Except.ok content =>
      let response_text := pyStrip content
      let variations :=
        ((pySplitOn "\n" response_text).map pyStrip).filter (fun l => l ≠ "")
      if variations = [] then Sum.inr [user_query]
      else Sum.inr (variations.take 3)

/-! ## `generate_mermaid_diagram` (web_app.py lines 34-141) -/

/-- A file entry of the repository tree (path and byte size). -/
structure FileEntry where
  path : String
  size : ℕ
deriving DecidableEq

/-- Code-fence stripping (lines 103-106). -/
def stripFences (t : String) : String :=
  if pyStartsWith "```mermaid" t then
    pyStrip (pyReplace (pyReplace t "```mermaid" "") "```" "")
  else if pyStartsWith "```" t then pyStrip (pyReplace t "```" "")
  else t

/-- The per-line `&`-operator repair (lines 111-129): a line holding both
`&` and `-->` with exactly one arrow and `&` on its left side is split
into one connection per source; any other line passes through unchanged. -/
def fixAmpLine (line : String) : List String :=
  if pyContainsChar line '&' && subStr "-->" line then
    match pySplitOn "-->" line with
    | [l, r] =>
      let left_side := pyStrip l
      let right_side := pyStrip r
      if pyContainsChar left_side '&' then
        (pySplitOn "&" left_side).map (fun s => "    " ++ pyStrip s ++ " --> " ++ right_side)
      else [line]
    | _ => [line]
  else [line]

/-- The whole-text repair (lines 109-131): apply `fixAmpLine` to each line
and rejoin. -/
def fixAmp (text : String) : String :=
  pyJoin "\n" (((pySplitOn "\n" text).map fixAmpLine).flatten)

/-- `generate_mermaid_diagram` (lines 34-141).  `hasClient` is whether an
API key was configured (line 36); `gen` is the outcome of the external
completion call; `files` only feeds that call's prompt (lines 39-97), so it
does not influence the returned text.  The success path strips code fences,
repairs `&`-lines, and prepends the `graph` directive when missing; the
no-client and exception paths return the source's literal stubs. -/
def generate_mermaid_diagram (hasClient : Bool) (gen : Except String String)
    (repository_name : String) (files : List FileEntry) : String :=
  if hasClient = false then "graph TD\n    A[Repository] --> B[No API key configured]"
  else
    match gen with
    | Except.error e =>
      "graph TD\n    A[" ++ repository_name ++ "] --> B[Error generating diagram]\n    B --> C["
        ++ pySlice 50 e ++ "...]"
    | Except.ok raw =>
      let response_text := stripFences (pyStrip raw)
      let response_text := fixAmp response_text
      if pyStartsWith "graph" response_text then response_text
      else "graph TD\n" ++ response_text

/-! ## `get_repository_tree` and the `/generate-diagram` endpoint
(web_app.py lines 247-280 and 481-510) -/

/-- One entry of the provider's recursive tree listing. -/
structure TreeItem where
  type : String
  path : String
  size : Option ℕ
deriving DecidableEq

/-- The outcome of the tree HTTP fetch, as the source distinguishes it:
404, 403, any other request failure, or a parsed tree payload. -/
inductive TreeResp where
  | notFound
  | forbidden
  | httpError (msg : String)
  | ok (tree : List TreeItem)

/-- `get_repository_tree` (lines 247-280): map HTTP failures to error
strings and keep only blob entries (files, not directories), with a
missing size defaulting to 0. -/
def get_repository_tree : TreeResp → Except String (List FileEntry)
  | TreeResp.notFound => Except.error "Repository not found"
  | TreeResp.forbidden => Except.error "Repository access denied (add GitHub token)"
  | TreeResp.httpError m => Except.error ("File tree fetch failed: " ++ m)
  | TreeResp.ok tree =>
    Except.ok ((tree.filter (fun i => i.type == "blob")).map (fun i => ⟨i.path, i.size.getD 0⟩))

/-- The success payload of the `/generate-diagram` endpoint. -/
structure DiagramResponse where
  repository : String
  file_count : ℕ
  diagram : String
deriving DecidableEq

/-- The `/generate-diagram` endpoint (lines 481-510).  The diagram
synthesizer (and through it the external generation capability) is the
`diagramGen` parameter, invoked only on the success path. -/
def generate_diagram (diagramGen : String → List FileEntry → String)
    (owner repo : String) (treeResp : TreeResp) : Except String DiagramResponse :=
  let owner := pyStrip owner
  let repo := pyStrip repo
  if owner = "" ∨ repo = "" then Except.error "Owner and repository name are required"
  else
    match get_repository_tree treeResp with
    | Except.error e => Except.error e
    | Except.ok files =>
      if files = [] then Except.error "No files found in repository"
      else
        Except.ok ⟨owner ++ "/" ++ repo, files.length, diagramGen (owner ++ "/" ++ repo) files⟩

/-! ## Properties of round-half-to-even -/

lemma rhe_cases (q : ℚ) : rhe q = ⌊q⌋ ∨ rhe q = ⌊q⌋ + 1 := by
  unfold rhe
  split_ifs <;> simp

lemma floor_le_rhe (q : ℚ) : ⌊q⌋ ≤ rhe q := by
  rcases rhe_cases q with h | h <;> omega

lemma rhe_le_floor_add_one (q : ℚ) : rhe q ≤ ⌊q⌋ + 1 := by
  rcases rhe_cases q with h | h <;> omega

lemma rhe_nonneg {q : ℚ} (h : 0 ≤ q) : 0 ≤ rhe q :=
  le_trans (Int.floor_nonneg.mpr h) (floor_le_rhe q)

lemma rhe_le_of_le_int {q : ℚ} {n : ℤ} (h : q ≤ (n : ℚ)) : rhe q ≤ n := by
  by_cases hq : q = (n : ℚ)
  · subst hq
    unfold rhe
    rw [Int.floor_intCast]
    norm_num
  · have hlt : ⌊q⌋ < n := Int.floor_lt.mpr (lt_of_le_of_ne h hq)
    have := rhe_le_floor_add_one q
    omega

lemma rhe_mono {x y : ℚ} (h : x ≤ y) : rhe x ≤ rhe y := by
  by_cases hf : ⌊x⌋ = ⌊y⌋
  · unfold rhe
    rw [← hf]
    have hxy : x - ⌊x⌋ ≤ y - ⌊x⌋ := by linarith
    split_ifs <;> first | omega | linarith
  · have h1 : ⌊x⌋ < ⌊y⌋ := lt_of_le_of_ne (Int.floor_le_floor h) hf
    calc rhe x ≤ ⌊x⌋ + 1 := rhe_le_floor_add_one x
      _ ≤ ⌊y⌋ := by omega
      _ ≤ rhe y := floor_le_rhe y

lemma pyRound2_nonneg {q : ℚ} (h : 0 ≤ q) : 0 ≤ pyRound2 q := by
  unfold pyRound2
  have : (0 : ℤ) ≤ rhe (100 * q) := rhe_nonneg (by linarith)
  have : (0 : ℚ) ≤ (rhe (100 * q) : ℚ) := by exact_mod_cast this
  linarith

lemma pyRound2_le_one {q : ℚ} (h : q ≤ 1) : pyRound2 q ≤ 1 := by
  unfold pyRound2
  have h1 : rhe (100 * q) ≤ (100 : ℤ) := rhe_le_of_le_int (by push_cast; linarith)
  rw [div_le_one (by norm_num)]
  exact_mod_cast h1

lemma pyRound2_mono {x y : ℚ} (h : x ≤ y) : pyRound2 x ≤ pyRound2 y := by
  unfold pyRound2
  have h1 : rhe (100 * x) ≤ rhe (100 * y) := rhe_mono (by linarith)
  have h2 : ((rhe (100 * x) : ℤ) : ℚ) ≤ ((rhe (100 * y) : ℤ) : ℚ) := by exact_mod_cast h1
  linarith

/-! ## Scorer range, components, monotonicity (claims C1, C5, C6, C9) -/

lemma raw_score_nonneg (q : String) (repo : Repo) (pl : Option String) :
    0 ≤ raw_score q repo pl := by
  unfold raw_score stars_bonus
  positivity

/-- C1: for every query, well-typed repository record (each text field
possibly missing, star count a natural number) and optional preferred
language, the relevance score lies in [0, 1], equals
`min(raw / 20, 1.0)` rounded to two decimal places (round half to even, the
mode of Python's `round`), and is an integer number of hundredths. -/
theorem scorer_range_and_formula (q : String) (repo : Repo) (pl : Option String) :
    0 ≤ calculate_semantic_relevance q repo pl
      ∧ calculate_semantic_relevance q repo pl ≤ 1
      ∧ calculate_semantic_relevance q repo pl
          = pyRound2 (min (raw_score q repo pl / 20) 1)
      ∧ ∃ n : ℤ, calculate_semantic_relevance q repo pl = (n : ℚ) / 100 := by
  have h0 : 0 ≤ raw_score q repo pl := raw_score_nonneg q repo pl
  have hm0 : 0 ≤ min (raw_score q repo pl / 20) 1 := le_min (by positivity) zero_le_one
  have hm1 : min (raw_score q repo pl / 20) 1 ≤ 1 := min_le_right _ _
  exact ⟨pyRound2_nonneg hm0, pyRound2_le_one hm1, rfl,
    ⟨rhe (100 * min (raw_score q repo pl / 20) 1), rfl⟩⟩

/-- C5: in the relevance scorer, the raw score carries an exact-phrase bonus
of 5 exactly when the query has more than one distinct token and the
lowercased phrase occurs as a substring of the concatenated
name+description+topics+preview text, and a bonus of 0 otherwise. -/
theorem scorer_phrase_bonus (q : String) (repo : Repo) (pl : Option String) :
    raw_score q repo pl
      = (overlap q repo : ℚ) + (name_matches q repo : ℚ) + (desc_matches q repo : ℚ)
        + (topic_matches q repo : ℚ) + (readme_matches q repo : ℚ)
        + (if 1 < (query_words q).length ∧ subStr (pyLower q) (all_repo_text repo) = true
            then (5 : ℚ) else 0)
        + stars_bonus repo + (language_bonus repo pl : ℚ)
      ∧ (phrase_bonus q repo = 5
          ↔ 1 < (query_words q).length ∧ subStr (pyLower q) (all_repo_text repo) = true)
      ∧ (phrase_bonus q repo = 0
          ↔ ¬(1 < (query_words q).length ∧ subStr (pyLower q) (all_repo_text repo) = true)) := by
  refine ⟨?_, ?_, ?_⟩
  · unfold raw_score phrase_bonus
    split_ifs <;> norm_num
  · unfold phrase_bonus
    split_ifs with h <;> simp [h]
  · unfold phrase_bonus
    split_ifs with h <;> simp [h]

lemma raw_score_stars_decomp (q : String) (pl : Option String) (n d : Option String)
    (t : List String) (p lang : Option String) (s : ℕ) :
    raw_score q ⟨n, d, t, p, s, lang⟩ pl
      = (overlap q ⟨n, d, t, p, 0, lang⟩ : ℚ) + (name_matches q ⟨n, d, t, p, 0, lang⟩ : ℚ)
        + (desc_matches q ⟨n, d, t, p, 0, lang⟩ : ℚ) + (topic_matches q ⟨n, d, t, p, 0, lang⟩ : ℚ)
        + (readme_matches q ⟨n, d, t, p, 0, lang⟩ : ℚ) + (phrase_bonus q ⟨n, d, t, p, 0, lang⟩ : ℚ)
        + min ((s : ℚ) / 1000) 2 + (language_bonus ⟨n, d, t, p, 0, lang⟩ pl : ℚ) := rfl

/-- C6: holding the query, all text fields, the language tag and the
preferred language fixed, the relevance score is monotone non-decreasing in
the star count. -/
theorem scorer_monotone_in_stars (q : String) (pl : Option String) (n d : Option String)
    (t : List String) (p lang : Option String) (s1 s2 : ℕ) (h : s1 ≤ s2) :
    calculate_semantic_relevance q ⟨n, d, t, p, s1, lang⟩ pl
      ≤ calculate_semantic_relevance q ⟨n, d, t, p, s2, lang⟩ pl := by
  unfold calculate_semantic_relevance
  apply pyRound2_mono
  apply min_le_min _ le_rfl
  have hraw : raw_score q ⟨n, d, t, p, s1, lang⟩ pl ≤ raw_score q ⟨n, d, t, p, s2, lang⟩ pl := by
    rw [raw_score_stars_decomp, raw_score_stars_decomp]
    have hmin : min ((s1 : ℚ) / 1000) 2 ≤ min ((s2 : ℚ) / 1000) 2 := by
      apply min_le_min _ le_rfl
      have : (s1 : ℚ) ≤ (s2 : ℚ) := by exact_mod_cast h
      linarith
    linarith
  linarith

/-- Witness for C6 at a concrete record and star counts 0 ≤ 1. -/
theorem scorer_monotone_in_stars_witness :
    calculate_semantic_relevance "bird sound" ⟨none, none, [], none, 0, none⟩ none
      ≤ calculate_semantic_relevance "bird sound" ⟨none, none, [], none, 1, none⟩ none :=
  scorer_monotone_in_stars "bird sound" none none none [] none none 0 1 (by decide)

/-- C9 counterexample: a record whose topic list is JSON-null (all other
fields absent) makes the scorer raise a `TypeError` (`' '.join(None)`),
modelled as `none`: the scorer does not return a score there, so a null
topic list is not treated as an empty default. -/
theorem scorer_null_topics_fails :
    calculate_semantic_relevance_json "bird sound"
      ⟨JField.absent, JField.absent, JField.null, JField.absent, JField.absent, JField.absent⟩
      none = none := rfl

/-- C9 as amended: the scorer is total whenever the topic list and the star
count are not JSON-null (absent is fine for every field, and null is
tolerated for the string fields); an all-absent record scores exactly like
one with explicit empty strings and zero stars. -/
theorem scorer_total_on_non_null_topics_stars (q : String) (pl : Option String) (jr : JRepo)
    (h1 : jr.topics ≠ JField.null) (h2 : jr.stargazers_count ≠ JField.null) :
    (∃ score, calculate_semantic_relevance_json q jr pl = some score)
      ∧ calculate_semantic_relevance_json q
          ⟨JField.absent, JField.absent, JField.absent, JField.absent, JField.absent,
            JField.absent⟩ pl
        = some (calculate_semantic_relevance q ⟨some "", some "", [], some "", 0, some ""⟩ pl) := by
  constructor
  · obtain ⟨na, de, tp, rp, st, la⟩ := jr
    cases tp <;> cases st <;> simp_all [calculate_semantic_relevance_json]
  · rfl

/-- Witness for the amended C9 at a concrete all-absent record. -/
theorem scorer_total_on_non_null_topics_stars_witness :
    (∃ score, calculate_semantic_relevance_json "bird sound"
        ⟨JField.absent, JField.absent, JField.absent, JField.absent, JField.absent, JField.absent⟩
        none = some score)
      ∧ calculate_semantic_relevance_json "bird sound"
          ⟨JField.absent, JField.absent, JField.absent, JField.absent, JField.absent,
            JField.absent⟩ none
        = some (calculate_semantic_relevance "bird sound" ⟨some "", some "", [], some "", 0, some ""⟩
            none) :=
  scorer_total_on_non_null_topics_stars "bird sound" none
    ⟨JField.absent, JField.absent, JField.absent, JField.absent, JField.absent, JField.absent⟩
    (by decide) (by decide)

/-! ## Merger ordering (claim C2) -/

instance : IsTrans ScoredItem rankGE := ⟨by
  intro a b c hab hbc
  rcases hab with h1 | ⟨e1, s1⟩ <;> rcases hbc with h2 | ⟨e2, s2⟩
  · exact Or.inl (lt_trans h2 h1)
  · exact Or.inl (e2 ▸ h1)
  · exact Or.inl (by rw [e1]; exact h2)
  · exact Or.inr ⟨e1.trans e2, le_trans s2 s1⟩⟩

instance : IsTotal ScoredItem rankGE := ⟨by
  intro a b
  rcases lt_trichotomy a.semantic_relevance b.semantic_relevance with h | h | h
  · exact Or.inr (Or.inl h)
  · rcases Nat.le_total b.item.repo.stargazers_count a.item.repo.stargazers_count with hs | hs
    · exact Or.inl (Or.inr ⟨h, hs⟩)
    · exact Or.inr (Or.inr ⟨h.symm, hs⟩)
  · exact Or.inl (Or.inl h)⟩

/-- The preview back-fill does not change the sort key, so the merger's
final list is pairwise ordered by `rankGE`. -/
lemma merger_output_pairwise (search : String → Except String (List Item))
    (fetchReadme : Item → String) (variations : List String) (original_query : String)
    (limit : ℕ) (pl : Option String) :
    List.Pairwise rankGE
      ((search_multiple_variations search fetchReadme variations original_query limit pl).2) := by
  have h1 : List.Sorted rankGE
      (List.insertionSort rankGE (mergedUnique search variations original_query pl)) :=
    List.sorted_insertionSort rankGE _
  have h2 := List.Pairwise.sublist (List.take_sublist limit _) h1
  exact List.pairwise_map.mpr
    (h2.imp (fun {a b} h =>
      show rankGE (updReadme fetchReadme a) (updReadme fetchReadme b) from h))

/-- Fallback element for positional access in the C2 statement. -/
def dItem : ScoredItem := ⟨⟨0, "", ⟨none, none, [], none, 0, none⟩⟩, 0, ""⟩

/-- C2: in the merged, truncated result list, an item with strictly greater
relevance precedes one with lower relevance, and among equal relevance the
higher star count precedes (positions `i < j`). -/
theorem merger_output_ordered (search : String → Except String (List Item))
    (fetchReadme : Item → String) (variations : List String) (original_query : String)
    (limit : ℕ) (pl : Option String) (i j : ℕ) (hij : i < j)
    (hj : j < ((search_multiple_variations search fetchReadme variations original_query limit
        pl).2).length) :
    (((search_multiple_variations search fetchReadme variations original_query limit
          pl).2).getD j dItem).semantic_relevance
        ≤ (((search_multiple_variations search fetchReadme variations original_query limit
          pl).2).getD i dItem).semantic_relevance
      ∧ ((((search_multiple_variations search fetchReadme variations original_query limit
            pl).2).getD i dItem).semantic_relevance
          = (((search_multiple_variations search fetchReadme variations original_query limit
            pl).2).getD j dItem).semantic_relevance
        → (((search_multiple_variations search fetchReadme variations original_query limit
            pl).2).getD j dItem).item.repo.stargazers_count
          ≤ (((search_multiple_variations search fetchReadme variations original_query limit
            pl).2).getD i dItem).item.repo.stargazers_count) := by
  have hi : i < ((search_multiple_variations search fetchReadme variations original_query limit
      pl).2).length := lt_trans hij hj
  have hp := merger_output_pairwise search fetchReadme variations original_query limit pl
  have hr := List.pairwise_iff_get.mp hp ⟨i, hi⟩ ⟨j, hj⟩ hij
  rw [List.getD_eq_getElem _ _ hi, List.getD_eq_getElem _ _ hj]
  rw [List.get_eq_getElem, List.get_eq_getElem] at hr
  rcases hr with h | ⟨he, hs⟩
  · exact ⟨le_of_lt h, fun heq => absurd (heq ▸ h) (lt_irrefl _)⟩
  · exact ⟨le_of_eq he.symm, fun _ => hs⟩

/-- Concrete two-item search oracle for the C2 witness. -/
def c2SearchW : String → Except String (List Item) := fun _ =>
  Except.ok [⟨1, "", ⟨none, none, [], none, 0, none⟩⟩, ⟨2, "", ⟨none, none, [], none, 0, none⟩⟩]

/-- Witness for C2 at a concrete search outcome, positions 0 < 1. -/
theorem merger_output_ordered_witness :
    (((search_multiple_variations c2SearchW (fun _ => "") ["v"] "q" 2 none).2).getD 1
          dItem).semantic_relevance
        ≤ (((search_multiple_variations c2SearchW (fun _ => "") ["v"] "q" 2 none).2).getD 0
          dItem).semantic_relevance
      ∧ ((((search_multiple_variations c2SearchW (fun _ => "") ["v"] "q" 2 none).2).getD 0
            dItem).semantic_relevance
          = (((search_multiple_variations c2SearchW (fun _ => "") ["v"] "q" 2 none).2).getD 1
            dItem).semantic_relevance
        → (((search_multiple_variations c2SearchW (fun _ => "") ["v"] "q" 2 none).2).getD 1
            dItem).item.repo.stargazers_count
          ≤ (((search_multiple_variations c2SearchW (fun _ => "") ["v"] "q" 2 none).2).getD 0
            dItem).item.repo.stargazers_count) := by
  have hm : (mergedUnique c2SearchW ["v"] "q" none).length = 2 := by
    simp [mergedUnique, variationPairs, dedupKeepFirst, scoreItem, c2SearchW]
  have hlen : 1 < ((search_multiple_variations c2SearchW (fun _ => "") ["v"] "q" 2 none).2).length := by
    simp only [search_multiple_variations, List.length_map, List.length_take,
      List.length_insertionSort, hm]
    norm_num
  exact merger_output_ordered c2SearchW (fun _ => "") ["v"] "q" 2 none 0 1 (by decide) hlen

/-! ## Merger de-duplication (claim C3) -/

lemma dedupKeepFirst_not_mem_seen (o : String) (pl : Option String) :
    ∀ (pairs : List (String × Item)) (seen : List ℕ) (s : ScoredItem),
      s ∈ dedupKeepFirst o pl pairs seen → s.item.id ∉ seen := by
  intro pairs
  induction pairs with
  | nil => intro seen s h; simp [dedupKeepFirst] at h
  | cons hd tl ih =>
    intro seen s h
    obtain ⟨v, it⟩ := hd
    by_cases hm : it.id ∈ seen
    · rw [dedupKeepFirst, if_pos hm] at h
      exact ih seen s h
    · rw [dedupKeepFirst, if_neg hm] at h
      rcases List.mem_cons.mp h with rfl | h2
      · exact hm
      · intro hin
        exact ih (it.id :: seen) s h2 (List.mem_cons_of_mem _ hin)

lemma dedupKeepFirst_ids_nodup (o : String) (pl : Option String) :
    ∀ (pairs : List (String × Item)) (seen : List ℕ),
      ((dedupKeepFirst o pl pairs seen).map (fun s => s.item.id)).Nodup := by
  intro pairs
  induction pairs with
  | nil => intro seen; simp [dedupKeepFirst]
  | cons hd tl ih =>
    intro seen
    obtain ⟨v, it⟩ := hd
    by_cases hm : it.id ∈ seen
    · rw [dedupKeepFirst, if_pos hm]
      exact ih seen
    · rw [dedupKeepFirst, if_neg hm]
      rw [List.map_cons, List.nodup_cons]
      refine ⟨?_, ih (it.id :: seen)⟩
      intro hmem
      obtain ⟨s, hs, hid⟩ := List.mem_map.mp hmem
      exact dedupKeepFirst_not_mem_seen o pl tl (it.id :: seen) s hs
        (by rw [hid]; exact List.mem_cons_self _ _)

lemma dedupKeepFirst_covers (o : String) (pl : Option String) :
    ∀ (pairs : List (String × Item)) (seen : List ℕ) (p : String × Item), p ∈ pairs →
      p.2.id ∈ seen ∨ ∃ s ∈ dedupKeepFirst o pl pairs seen, s.item.id = p.2.id := by
  intro pairs
  induction pairs with
  | nil => intro seen p hp; simp at hp
  | cons hd tl ih =>
    intro seen p hp
    obtain ⟨v, it⟩ := hd
    by_cases hm : it.id ∈ seen
    · rw [dedupKeepFirst, if_pos hm]
      rcases List.mem_cons.mp hp with rfl | hp2
      · exact Or.inl hm
      · exact ih seen p hp2
    · rw [dedupKeepFirst, if_neg hm]
      rcases List.mem_cons.mp hp with rfl | hp2
      · exact Or.inr ⟨scoreItem o pl v it, List.mem_cons_self _ _, rfl⟩
      · rcases ih (it.id :: seen) p hp2 with hin | ⟨s, hs, hid⟩
        · rcases List.mem_cons.mp hin with heq | hin2
          · exact Or.inr ⟨scoreItem o pl v it, List.mem_cons_self _ _, heq.symm⟩
          · exact Or.inl hin2
        · exact Or.inr ⟨s, List.mem_cons_of_mem _ hs, hid⟩

lemma dedupKeepFirst_first_occurrence (o : String) (pl : Option String) :
    ∀ (pairs : List (String × Item)) (seen : List ℕ) (s : ScoredItem),
      s ∈ dedupKeepFirst o pl pairs seen →
      pairs.find? (fun p => p.2.id == s.item.id) = some (s.found_via_query, s.item) := by
  intro pairs
  induction pairs with
  | nil => intro seen s h; simp [dedupKeepFirst] at h
  | cons hd tl ih =>
    intro seen s h
    obtain ⟨v, it⟩ := hd
    by_cases hm : it.id ∈ seen
    · rw [dedupKeepFirst, if_pos hm] at h
      have hs : s.item.id ∉ seen := dedupKeepFirst_not_mem_seen o pl tl seen s h
      have hne : ¬((it.id == s.item.id) = true) := by
        simp only [beq_iff_eq]
        intro heq
        exact hs (heq ▸ hm)
      rw [List.find?_cons_of_neg tl
        (show ¬((fun p : String × Item => p.2.id == s.item.id) (v, it) = true) from hne)]
      exact ih seen s h
    · rw [dedupKeepFirst, if_neg hm] at h
      rcases List.mem_cons.mp h with rfl | h2
      · rw [List.find?_cons_of_pos _ (by simp [scoreItem])]
        rfl
      · have hs : s.item.id ∉ it.id :: seen :=
          dedupKeepFirst_not_mem_seen o pl tl (it.id :: seen) s h2
        have hne : ¬((it.id == s.item.id) = true) := by
          simp only [beq_iff_eq]
          intro heq
          exact hs (heq ▸ List.mem_cons_self _ _)
        rw [List.find?_cons_of_neg tl
          (show ¬((fun p : String × Item => p.2.id == s.item.id) (v, it) = true) from hne)]
        exact ih (it.id :: seen) s h2

/-- C3: the merged unique set has pairwise distinct identities, represents
every identity any (successful) variation returned, and keeps exactly the
first occurrence of each identity — with its originating variation — in
response order. -/
theorem merger_dedup_unique (search : String → Except String (List Item))
    (variations : List String) (original_query : String) (pl : Option String) :
    ((mergedUnique search variations original_query pl).map (fun s => s.item.id)).Nodup
      ∧ (∀ p ∈ variationPairs search variations,
          ∃ s ∈ mergedUnique search variations original_query pl, s.item.id = p.2.id)
      ∧ (∀ s ∈ mergedUnique search variations original_query pl,
          (variationPairs search variations).find? (fun p => p.2.id == s.item.id)
            = some (s.found_via_query, s.item)) := by
  refine ⟨dedupKeepFirst_ids_nodup original_query pl _ [], ?_, ?_⟩
  · intro p hp
    rcases dedupKeepFirst_covers original_query pl (variationPairs search variations) [] p hp with
      hin | h
    · simp at hin
    · exact h
  · intro s hs
    exact dedupKeepFirst_first_occurrence original_query pl _ [] s hs

/-! ## Query-expander fallback (claim C4) -/

/-- C4: with no credential configured the no-client fallback of
`parse_natural_language_query` returns the bare string `"foo bar"`
(line 174), not the one-element list `["foo bar"]` the spec promises —
the exception fallback (line 233) does return the list. -/
theorem expander_no_key_returns_bare_string :
    parse_natural_language_query false (Except.error "") "foo bar" = Sum.inl "foo bar"
      ∧ (Sum.inl "foo bar" : String ⊕ List String) ≠ Sum.inr ["foo bar"]
      ∧ parse_natural_language_query true (Except.error "boom") "foo bar" = Sum.inr ["foo bar"] :=
  ⟨rfl, by simp, rfl⟩

/-! ## Diagram synthesizer fallbacks (claim C7) -/

/-- C7 counterexample: with no API key configured the stub is the fixed
two-node diagram, which does not name the repository (here `"owner/repo"`)
and carries no error detail. -/
theorem diagram_no_key_stub_omits_repo_name :
    generate_mermaid_diagram false (Except.error "boom") "owner/repo" []
        = "graph TD\n    A[Repository] --> B[No API key configured]"
      ∧ subStr "owner/repo"
          (generate_mermaid_diagram false (Except.error "boom") "owner/repo" []) = false :=
  ⟨rfl, by decide⟩

/-- C7 as amended: with no API key the synthesizer returns the fixed
two-node stub (whatever the generation outcome would have been); when the
generation call raises, it returns the three-node stub naming the
repository with the error detail truncated to its first 50 characters. -/
theorem diagram_fallback_shapes (g : Except String String) (repository_name e : String)
    (files : List FileEntry) :
    generate_mermaid_diagram false g repository_name files
        = "graph TD\n    A[Repository] --> B[No API key configured]"
      ∧ generate_mermaid_diagram true (Except.error e) repository_name files
        = "graph TD\n    A[" ++ repository_name ++ "] --> B[Error generating diagram]\n    B --> C["
            ++ pySlice 50 e ++ "...]" :=
  ⟨rfl, rfl⟩

/-! ## Diagram `&`-repair (claim C8) -/

/-- C8: the repair step turns the line `"    A & B --> C"` into exactly
`"    A --> C"` and `"    B --> C"`, and no output line contains `&`. -/
theorem amp_repair_splits_line :
    fixAmpLine "    A & B --> C" = ["    A --> C", "    B --> C"]
      ∧ ∀ l ∈ fixAmpLine "    A & B --> C", pyContainsChar l '&' = false := by
  exact ⟨by decide, by decide⟩

/-! ## Diagram endpoint on an empty tree (claim C10) -/

/-- C10: when the tree fetch succeeds but contains no blob entry, the
endpoint answers the "No files found in repository" error and its result
does not depend on the diagram synthesizer (it is never invoked). -/
theorem diagram_endpoint_empty_tree (g g' : String → List FileEntry → String)
    (owner repo : String) (tree : List TreeItem)
    (h1 : pyStrip owner ≠ "") (h2 : pyStrip repo ≠ "")
    (h3 : tree.filter (fun i => i.type == "blob") = []) :
    generate_diagram g owner repo (TreeResp.ok tree)
        = Except.error "No files found in repository"
      ∧ generate_diagram g owner repo (TreeResp.ok tree)
        = generate_diagram g' owner repo (TreeResp.ok tree) := by
  have key : ∀ f : String → List FileEntry → String,
      generate_diagram f owner repo (TreeResp.ok tree)
        = Except.error "No files found in repository" := by
    intro f
    simp [generate_diagram, get_repository_tree, h1, h2, h3]
  exact ⟨key g, (key g).trans (key g').symm⟩

/-- Witness for C10: a one-entry tree whose entry is a directory. -/
theorem diagram_endpoint_empty_tree_witness :
    generate_diagram (fun _ _ => "d1") "o" "r" (TreeResp.ok [⟨"tree", "src", none⟩])
        = Except.error "No files found in repository"
      ∧ generate_diagram (fun _ _ => "d1") "o" "r" (TreeResp.ok [⟨"tree", "src", none⟩])
        = generate_diagram (fun _ _ => "d2") "o" "r" (TreeResp.ok [⟨"tree", "src", none⟩]) :=
  diagram_endpoint_empty_tree (fun _ _ => "d1") (fun _ _ => "d2") "o" "r" [⟨"tree", "src", none⟩]
    (by decide) (by decide) (by decide)

end WebApp
